import Mathlib

/-!
Verification of the Almas chat backend (src/backend/server.js).

The backend's core is shallowly embedded below: the session record, the
whole-document session store (the `chats.json` mapping), mode detection,
the mode-profile table, the context builder, the generator-call wrapper
with its fallback, and the `POST /api/chat` turn orchestrator.  The
external HTTP generator is modelled as an oracle: the orchestrator
receives a function producing the generator outcome for the context it
is sent, so the embedding stays pure while the control flow of the
handler is kept exactly as in the source.
-/

namespace Almas

/-- A transcript message: `{ role, content }` in the source. -/
structure Message where
  role : String
  content : String
deriving DecidableEq, Repr

/-- A session record, as stored under one key of `chats.json`. -/
structure Session where
  title : String
  createdAt : Nat
  messages : List Message
  memory : String
  forcedMode : Option String
deriving DecidableEq, Repr

/-- Generation parameters plus instruction preamble of one mode profile.
JS numbers for `temperature` are modelled as rationals. -/
structure ModeConfig where
  temperature : ℚ
  max_tokens : Nat
  systemPrompt : String
deriving DecidableEq, Repr

/-- The `MODES` table of server.js, as a lookup by identifier
(`MODES[selectedMode]` yields `undefined`, i.e. `none`, on unknown keys). -/
def MODES (mode : String) : Option ModeConfig :=
  if mode = "chat" then
    some ⟨8/10, 500,
      "You are Almas, a friendly AI created by Hussain. Be natural and conversational."⟩
  else if mode = "technical" then
    some ⟨2/10, 2000,
      "You are Almas, a senior software engineer. Give optimized, correct answers with code blocks."⟩
  else if mode = "concise" then
    some ⟨5/10, 150,
      "You are Almas. Give very short and clear answers."⟩
  else if mode = "exam" then
    some ⟨3/10, 1200,
      "You are Almas. Answer in structured exam format with headings and bullet points."⟩
  else none

/-- Whether the character list begins with the pattern. -/
def startsWithChars : List Char → List Char → Bool
  | _, [] => true
  | [], _ :: _ => false
  | c :: cs, p :: ps => c = p && startsWithChars cs ps

/-- Whether the pattern occurs contiguously somewhere in the character list. -/
def hasSubChars (pat : List Char) : List Char → Bool
  | [] => startsWithChars [] pat
  | c :: cs => startsWithChars (c :: cs) pat || hasSubChars pat cs

/-- JS `s.includes(pat)` with `s` already held as a character list:
contiguous substring test. -/
def charsInclude (s : List Char) (pat : String) : Bool :=
  hasSubChars pat.toList s

/-- JS `message.toLowerCase()` on the ASCII range, as a character list. -/
def toLowerChars (s : String) : List Char :=
  s.toList.map Char.toLower

/-- The fixed keyword list of `detectMode`. -/
def techKeywords : List String :=
  ["code", "bug", "error", "algorithm", "function",
   "javascript", "node", "react", "express", "api",
   "database", "sql", "c++", "java", "python"]

/-- `detectMode` of server.js: case-insensitive keyword classification with
fixed priority technical > concise > exam > chat. -/
def detectMode (message : String) : String :=
  let lower := toLowerChars message
  if techKeywords.any (fun word => charsInclude lower word) then "technical"
  else if charsInclude lower "short answer" then "concise"
  else if charsInclude lower "exam" || charsInclude lower "define" then "exam"
  else "chat"

/-- `chat.forcedMode || detectMode(message)`: a non-empty forced mode string is
truthy and wins; `null` or the empty string falls back to detection. -/
def selectMode (forcedMode : Option String) (message : String) : String :=
  match forcedMode with
  | some m => if m = "" then detectMode message else m
  | none => detectMode message

/-- Outcome of the Groq HTTP call, as seen by `callGroq`: either a response
with `response.ok` true carrying the optional extracted
`data.choices?.[0]?.message?.content` (absent path gives `none`), or a
failure (non-ok status, which `callGroq` turns into a thrown error, or a
transport exception). -/
inductive GroqResult where
  | ok (content : Option String)
  | fail
deriving DecidableEq, Repr

/-- The fixed user-facing fallback reply returned from `callGroq`'s catch. -/
def fallbackReply : String := "⚠️ I\x27m having trouble connecting right now."

/-- Result of `callGroq`: `data.choices?.[0]?.message?.content || ""` on a
successful response, the fallback string when anything threw. -/
def callGroq : GroqResult → String
  | .ok content => content.getD ""
  | .fail => fallbackReply

/-- Last `n` elements of a list, in order (JS `arr.slice(-n)` for `n > 0`). -/
def takeLast (n : Nat) (l : List α) : List α :=
  l.drop (l.length - n)

/-- The context assembled in the `POST /api/chat` handler:
`[systemMessage, ...chat.messages.slice(-12)]` where the system message is
`config.systemPrompt + "\nUser Memory:\n" + (chat.memory || "None")`. -/
def buildContext (config : ModeConfig) (memory : String) (messages : List Message) :
    List Message :=
  Message.mk "system"
      (config.systemPrompt ++ "\nUser Memory:\n" ++ (if memory = "" then "None" else memory))
    :: takeLast 12 messages

/-- The persisted whole-document mapping id → Session (`chats.json`), with
JS object key order kept as list order. -/
abbrev Store := List (String × Session)

/-- Own-key lookup on the parsed document: the stored-mapping part of the JS
property read `data[chatId]` (`JSON.parse` yields unique own keys, so the
first match is the only one). -/
def lookupOwn : Store → String → Option Session
  | [], _ => none
  | (k, v) :: tl, chatId => if k = chatId then some v else lookupOwn tl chatId

/-- Names of the `Object.prototype` members that every object produced by
`JSON.parse` inherits; reading any of them on the document yields a truthy
non-session value (a function, or the prototype object itself). -/
def protoNames : List String :=
  ["constructor", "hasOwnProperty", "isPrototypeOf", "propertyIsEnumerable",
   "toLocaleString", "toString", "valueOf", "__proto__",
   "__defineGetter__", "__defineSetter__", "__lookupGetter__", "__lookupSetter__"]

/-- Value seen by the JS property read `data[chatId]`: an own key holding a
stored session, a truthy member inherited from `Object.prototype`, or
`undefined`. -/
inductive PropRead where
  | session (s : Session)
  | inherited
  | undefined
deriving DecidableEq, Repr

/-- `getChat`: `data[chatId] || null`.  The property read walks the prototype
chain: an own key shadows everything and yields its stored session; an absent
id naming an `Object.prototype` member yields that truthy inherited value;
only otherwise does the read give `undefined`, which `|| null` turns into
`null` (`.undefined` here). -/
def getChat (data : Store) (chatId : String) : PropRead :=
  match lookupOwn data chatId with
  | some s => .session s
  | none => if protoNames.contains chatId then .inherited else .undefined

/-- `saveChat`: `data[chatId] = chatData` on the full document — an existing
key keeps its position and gets the new value, a fresh key is appended as the
newest key. -/
def saveChat : Store → String → Session → Store
  | [], chatId, chatData => [(chatId, chatData)]
  | (k, v) :: tl, chatId, chatData =>
    if k = chatId then (chatId, chatData) :: tl
    else (k, v) :: saveChat tl chatId chatData

/-- `deleteChat`: the `if (!data[chatId]) return false` guard is the same
prototype-walking property read, so an absent id naming an inherited
`Object.prototype` member passes it; `delete data[chatId]` then removes the
own key when there is one (and is a no-op on inherited members), the document
is rewritten, and the function reports `true`. -/
def deleteChat (data : Store) (chatId : String) : Bool × Store :=
  match getChat data chatId with
  | .undefined => (false, data)
  | .inherited => (true, data)
  | .session _ => (true, data.filter (fun p => p.1 != chatId))

/-- One row of the `GET /api/chats` listing. -/
structure ChatSummary where
  chatId : String
  title : String
  createdAt : Nat
deriving DecidableEq, Repr

/-- Insert into a list kept in descending `createdAt` order. -/
def insertByCreatedAtDesc (x : ChatSummary) : List ChatSummary → List ChatSummary
  | [] => [x]
  | y :: ys =>
    if y.createdAt < x.createdAt then x :: y :: ys
    else y :: insertByCreatedAtDesc x ys

/-- The `GET /api/chats` handler: map every stored session to a summary and
sort by `createdAt` descending. -/
def listChats (data : Store) : List ChatSummary :=
  (data.map (fun p => ChatSummary.mk p.1 p.2.title p.2.createdAt)).foldr
    insertByCreatedAtDesc []

/-- Failure outcomes of the `POST /api/chat` handler: the 400 on missing
fields, the 404 on an unknown chat, the uncaught `TypeError` raised at
`chat.messages.push` when the fetched value is a truthy inherited non-session,
and the uncaught `TypeError` raised when `config.systemPrompt` dereferences an
`undefined` profile. -/
inductive TurnError where
  | invalidRequest
  | notFound
  | typeError
  | modeLookupFailed
deriving DecidableEq, Repr

/-- The success payload of `POST /api/chat`: `{ reply, modeUsed }`. -/
structure TurnOutput where
  reply : String
  modeUsed : String
deriving DecidableEq, Repr

/-- The `POST /api/chat` handler (turn orchestrator).  The generator is an
oracle `gen` giving the HTTP outcome for the context and configuration it is
sent.  The returned store is the committed document; on every failure path the
handler stops before `saveChat`, so the document is returned unchanged. -/
def handleTurn (data : Store) (chatId message : String)
    (gen : List Message → ModeConfig → GroqResult) :
    Except TurnError TurnOutput × Store :=
  if chatId = "" || message = "" then (.error .invalidRequest, data)
  else
    match getChat data chatId with
    | .undefined => (.error .notFound, data)
    | .inherited => (.error .typeError, data)
    | .session chat =>
      let chat1 : Session := { chat with messages := chat.messages ++ [⟨"user", message⟩] }
      let selectedMode := selectMode chat.forcedMode message
      match MODES selectedMode with
      | none => (.error .modeLookupFailed, data)
      | some config =>
        let context := buildContext config chat1.memory chat1.messages
        let aiReply := callGroq (gen context config)
        let chat2 : Session := { chat1 with
          messages := chat1.messages ++ [⟨"assistant", aiReply⟩],
          memory := message }
        (.ok ⟨aiReply, selectedMode⟩, saveChat data chatId chat2)

/-!
Interleaving model of two concurrent commits.  `saveChat` in the source is
`readData` (full-document read), an in-memory update, then `writeData`
(full-document write), with an `await` suspension between the read and the
write.  Two concurrent `handleTurn` commits on distinct sessions therefore
interleave at these two store accesses; each access is modelled as one atomic
action.  Writer `false` commits session value `s1` under key `id1`, writer
`true` commits `s2` under `id2`.
-/

/-- One store access of a concurrent commit: the full-document read or the
full-document write, tagged with which of the two writers performs it. -/
inductive RaceAct where
  | read (i : Bool)
  | write (i : Bool)
deriving DecidableEq, Repr

/-- The shared document plus each writer's private snapshot (absent until the
writer's read has happened). -/
structure RaceState where
  doc : Store
  snap1 : Option Store
  snap2 : Option Store
deriving DecidableEq, Repr

/-- Effect of one store access: a read snapshots the current document
(`readData`); a write replaces the whole document with the writer's snapshot
updated at the writer's own key (`data[chatId] = chatData; writeData(data)`).
A write by a writer that has not yet read is a no-op (such schedules are not
program orders). -/
def raceStep (id1 : String) (s1 : Session) (id2 : String) (s2 : Session)
    (st : RaceState) : RaceAct → RaceState
  | .read false => { st with snap1 := some st.doc }
  | .read true => { st with snap2 := some st.doc }
  | .write false =>
    match st.snap1 with
    | some snap => { st with doc := saveChat snap id1 s1 }
    | none => st
  | .write true =>
    match st.snap2 with
    | some snap => { st with doc := saveChat snap id2 s2 }
    | none => st

/-- Final document after running a schedule of store accesses from an initial
document with no snapshots taken. -/
def runRace (id1 : String) (s1 : Session) (id2 : String) (s2 : Session)
    (doc0 : Store) (sched : List RaceAct) : Store :=
  (sched.foldl (raceStep id1 s1 id2 s2) ⟨doc0, none, none⟩).doc

/-! Concrete sample data used to exercise the theorems. -/

/-- Sample freshly-created session, as `createChat` seeds it. -/
def sampleSession : Session :=
  { title := "New Chat", createdAt := 5,
    messages := [⟨"assistant", "Hey 👋 I’m Almas. How can I help you today?"⟩],
    memory := "",
    forcedMode := none }

/-- One-session store used to run the handler on concrete input. -/
def sampleStore : Store := [("id1", sampleSession)]

/-- Session pinned to the concise profile through `forcedMode`. -/
def forcedSession : Session :=
  { sampleSession with createdAt := 7, forcedMode := some "concise" }

/-- Store holding the forced-mode session. -/
def forcedStore : Store := [("id2", forcedSession)]

/-- Session whose `forcedMode` names no profile of `MODES`. -/
def badModeSession : Session :=
  { sampleSession with forcedMode := some "turbo" }

/-- Store holding the broken forced-mode session. -/
def badModeStore : Store := [("id3", badModeSession)]

/-- Generator oracle that always answers successfully with `"reply"`. -/
def sampleGen : List Message → ModeConfig → GroqResult := fun _ _ => .ok (some "reply")

/-- A 20-message transcript with distinguishable contents. -/
def sampleTranscript : List Message :=
  (List.range 20).map (fun i => Message.mk "user" (toString i))

/-- Initial two-session document for the concurrency scenario. -/
def raceDoc0 : Store :=
  [("a", ⟨"New Chat", 1, [⟨"assistant", "hi"⟩], "", none⟩),
   ("b", ⟨"New Chat", 2, [⟨"assistant", "hi"⟩], "", none⟩)]

/-- Session value committed under key `"a"` by the first writer: its turn
appended and its memory overwritten. -/
def raceNewA : Session :=
  ⟨"New Chat", 1, [⟨"assistant", "hi"⟩, ⟨"user", "u1"⟩, ⟨"assistant", "r1"⟩], "u1", none⟩

/-- Session value committed under key `"b"` by the second writer. -/
def raceNewB : Session :=
  ⟨"New Chat", 2, [⟨"assistant", "hi"⟩, ⟨"user", "u2"⟩, ⟨"assistant", "r2"⟩], "u2", none⟩

/-! Store lemmas. -/

theorem lookupOwn_saveChat_same (data : Store) (chatId : String) (s : Session) :
    lookupOwn (saveChat data chatId s) chatId = some s := by
  induction data with
  | nil => simp [saveChat, lookupOwn]
  | cons p tl ih =>
    obtain ⟨k, v⟩ := p
    by_cases h : k = chatId
    · simp [saveChat, h, lookupOwn]
    · simp [saveChat, h, lookupOwn, ih]

theorem lookupOwn_saveChat_ne (data : Store) (chatId chatId2 : String) (s : Session)
    (h : chatId2 ≠ chatId) :
    lookupOwn (saveChat data chatId s) chatId2 = lookupOwn data chatId2 := by
  induction data with
  | nil => simp [saveChat, lookupOwn, Ne.symm h]
  | cons p tl ih =>
    obtain ⟨k, v⟩ := p
    by_cases hk : k = chatId
    · subst hk
      simp [saveChat, lookupOwn, Ne.symm h]
    · simp [saveChat, hk, lookupOwn, ih]

theorem lookupOwn_filter_self (data : Store) (chatId : String) :
    lookupOwn (data.filter (fun p => p.1 != chatId)) chatId = none := by
  induction data with
  | nil => simp [lookupOwn]
  | cons p tl ih =>
    obtain ⟨k, v⟩ := p
    by_cases h : k = chatId
    · simp [h, ih]
    · simp [h, lookupOwn, ih]

theorem lookupOwn_eq_none_keys (data : Store) (chatId : String)
    (h : lookupOwn data chatId = none) :
    ∀ p ∈ data, ¬ p.1 = chatId := by
  induction data with
  | nil => simp
  | cons q tl ih =>
    obtain ⟨k, v⟩ := q
    by_cases hk : k = chatId
    · simp [lookupOwn, hk] at h
    · intro p hp
      rcases List.mem_cons.mp hp with hp | hp
      · subst hp
        exact hk
      · exact ih (by simpa [lookupOwn, hk] using h) p hp

theorem getChat_eq_session_iff (data : Store) (chatId : String) (s : Session) :
    getChat data chatId = .session s ↔ lookupOwn data chatId = some s := by
  unfold getChat
  cases h : lookupOwn data chatId with
  | some t => simp
  | none =>
    by_cases hp : chatId ∈ protoNames
    · simp [hp]
    · simp [hp]

theorem getChat_saveChat_session (data : Store) (chatId : String) (s : Session) :
    getChat (saveChat data chatId s) chatId = .session s := by
  rw [getChat_eq_session_iff]
  exact lookupOwn_saveChat_same ..

theorem mem_insertByCreatedAtDesc (x y : ChatSummary) (l : List ChatSummary) :
    y ∈ insertByCreatedAtDesc x l ↔ y = x ∨ y ∈ l := by
  induction l with
  | nil => simp [insertByCreatedAtDesc]
  | cons z tl ih =>
    by_cases h : z.createdAt < x.createdAt
    · simp [insertByCreatedAtDesc, h]
    · simp [insertByCreatedAtDesc, h, ih]
      tauto

theorem mem_foldr_insert (l acc : List ChatSummary) (y : ChatSummary) :
    y ∈ l.foldr insertByCreatedAtDesc acc ↔ y ∈ l ∨ y ∈ acc := by
  induction l with
  | nil => simp
  | cons x tl ih =>
    simp [List.foldr, mem_insertByCreatedAtDesc, ih]
    tauto

theorem mem_listChats (data : Store) (s : ChatSummary) :
    s ∈ listChats data ↔ ∃ p ∈ data, s = ChatSummary.mk p.1 p.2.title p.2.createdAt := by
  unfold listChats
  rw [mem_foldr_insert]
  simp [eq_comm]

/-! Handler lemmas. -/

theorem handleTurn_eq_of_some
    (data : Store) (chatId message : String)
    (gen : List Message → ModeConfig → GroqResult) (chat : Session) (config : ModeConfig)
    (hid : ¬ chatId = "") (hmsg : ¬ message = "")
    (hget : getChat data chatId = .session chat)
    (hmode : MODES (selectMode chat.forcedMode message) = some config) :
    handleTurn data chatId message gen =
      (.ok ⟨callGroq (gen (buildContext config chat.memory
              (chat.messages ++ [⟨"user", message⟩])) config),
            selectMode chat.forcedMode message⟩,
       saveChat data chatId
         { chat with
             messages := (chat.messages ++ [⟨"user", message⟩])
               ++ [⟨"assistant",
                    callGroq (gen (buildContext config chat.memory
                      (chat.messages ++ [⟨"user", message⟩])) config)⟩],
             memory := message }) := by
  unfold handleTurn
  simp [hid, hmsg, hget, hmode]

theorem selectMode_forced (forced message : String) (hm : ¬ forced = "") :
    selectMode (some forced) message = forced := by
  simp [selectMode, hm]

/-! Claim theorems. -/

/-- C1: every successful `handleTurn` commits the fetched session with exactly
two messages appended — the user message with the submitted text, then the
assistant message — `memory` overwritten with the submitted text verbatim, and
`title`, `createdAt`, `forcedMode` and all pre-existing transcript messages
unchanged. -/
theorem handleTurn_commit_frame
    (data : Store) (chatId message : String)
    (gen : List Message → ModeConfig → GroqResult)
    (out : TurnOutput) (store1 : Store)
    (h : handleTurn data chatId message gen = (.ok out, store1)) :
    ∃ chat chat2 : Session,
      getChat data chatId = .session chat ∧
      chat2.messages = chat.messages ++ [⟨"user", message⟩, ⟨"assistant", out.reply⟩] ∧
      chat2.memory = message ∧
      chat2.title = chat.title ∧
      chat2.createdAt = chat.createdAt ∧
      chat2.forcedMode = chat.forcedMode ∧
      store1 = saveChat data chatId chat2 ∧
      getChat store1 chatId = .session chat2 := by
  by_cases hid : chatId = ""
  · unfold handleTurn at h
    simp [hid] at h
  by_cases hmsg : message = ""
  · unfold handleTurn at h
    simp [hid, hmsg] at h
  cases hget : getChat data chatId with
  | undefined =>
    unfold handleTurn at h
    simp [hid, hmsg, hget] at h
  | inherited =>
    unfold handleTurn at h
    simp [hid, hmsg, hget] at h
  | session chat =>
    cases hmode : MODES (selectMode chat.forcedMode message) with
    | none =>
      unfold handleTurn at h
      simp [hid, hmsg, hget, hmode] at h
    | some config =>
      rw [handleTurn_eq_of_some data chatId message gen chat config hid hmsg hget hmode,
        Prod.mk.injEq] at h
      obtain ⟨hout, hstore⟩ := h
      rw [Except.ok.injEq] at hout
      subst hout
      subst hstore
      refine ⟨chat,
        { chat with
            messages := (chat.messages ++ [⟨"user", message⟩])
              ++ [⟨"assistant", callGroq (gen (buildContext config chat.memory
                     (chat.messages ++ [⟨"user", message⟩])) config)⟩],
            memory := message },
        rfl, by simp, rfl, rfl, rfl, rfl, rfl, getChat_saveChat_session ..⟩

/-- Witness for C1: one concrete successful turn on the sample store. -/
theorem handleTurn_commit_frame_witness :
    ∃ chat chat2 : Session,
      getChat sampleStore "id1" = .session chat ∧
      chat2.messages = chat.messages
        ++ [⟨"user", "hello"⟩, ⟨"assistant", (TurnOutput.mk "reply" "chat").reply⟩] ∧
      chat2.memory = "hello" ∧
      chat2.title = chat.title ∧
      chat2.createdAt = chat.createdAt ∧
      chat2.forcedMode = chat.forcedMode ∧
      (handleTurn sampleStore "id1" "hello" sampleGen).2 = saveChat sampleStore "id1" chat2 ∧
      getChat (handleTurn sampleStore "id1" "hello" sampleGen).2 "id1" = .session chat2 :=
  handleTurn_commit_frame sampleStore "id1" "hello" sampleGen (TurnOutput.mk "reply" "chat")
    (handleTurn sampleStore "id1" "hello" sampleGen).2 (by rfl)

/-- C2: when the generator call fails, the failure is not surfaced: the turn
returns success carrying the fixed fallback reply, the fallback is appended as
the assistant message, and the grown-by-two session is still committed. -/
theorem upstream_failure_absorbed
    (data : Store) (chatId message : String) (chat : Session) (config : ModeConfig)
    (hid : ¬ chatId = "") (hmsg : ¬ message = "")
    (hget : getChat data chatId = .session chat)
    (hmode : MODES (selectMode chat.forcedMode message) = some config) :
    ∃ store1 chat2,
      handleTurn data chatId message (fun _ _ => .fail) =
        (.ok ⟨fallbackReply, selectMode chat.forcedMode message⟩, store1) ∧
      getChat store1 chatId = .session chat2 ∧
      chat2.messages = chat.messages ++ [⟨"user", message⟩, ⟨"assistant", fallbackReply⟩] ∧
      chat2.messages.length = chat.messages.length + 2 := by
  refine ⟨saveChat data chatId
      { chat with
          messages := (chat.messages ++ [⟨"user", message⟩]) ++ [⟨"assistant", fallbackReply⟩],
          memory := message },
    { chat with
        messages := (chat.messages ++ [⟨"user", message⟩]) ++ [⟨"assistant", fallbackReply⟩],
        memory := message },
    ?_, getChat_saveChat_session .., by simp, by simp⟩
  rw [handleTurn_eq_of_some data chatId message (fun _ _ => .fail) chat config hid hmsg hget hmode]
  rfl

/-- Witness for C2: a concrete failed-generator turn on the sample store. -/
theorem upstream_failure_absorbed_witness :
    ∃ store1 chat2,
      handleTurn sampleStore "id1" "hello" (fun _ _ => .fail) =
        (.ok ⟨fallbackReply, selectMode sampleSession.forcedMode "hello"⟩, store1) ∧
      getChat store1 "id1" = .session chat2 ∧
      chat2.messages = sampleSession.messages
        ++ [⟨"user", "hello"⟩, ⟨"assistant", fallbackReply⟩] ∧
      chat2.messages.length = sampleSession.messages.length + 2 :=
  upstream_failure_absorbed sampleStore "id1" "hello" sampleSession
    ⟨8/10, 500,
      "You are Almas, a friendly AI created by Hussain. Be natural and conversational."⟩
    (by decide) (by decide) (by rfl) (by rfl)

/-- C3: with no forced mode, classification is a case-insensitive substring
match in fixed priority order technical, then concise, then exam, with chat as
the default; the statement gives the priority chain over the lowercased text,
invariance under case changes, and the four reference examples. -/
theorem detectMode_policy :
    (∀ m : String, detectMode m =
      (if techKeywords.any (fun word => charsInclude (toLowerChars m) word) then "technical"
       else if charsInclude (toLowerChars m) "short answer" then "concise"
       else if charsInclude (toLowerChars m) "exam" || charsInclude (toLowerChars m) "define"
         then "exam"
       else "chat"))
    ∧ (∀ m₁ m₂ : String, toLowerChars m₁ = toLowerChars m₂ → detectMode m₁ = detectMode m₂)
    ∧ selectMode none "please fix this bug in my function" = "technical"
    ∧ selectMode none "give me a short answer" = "concise"
    ∧ selectMode none "define entropy" = "exam"
    ∧ selectMode none "how are you" = "chat" :=
  ⟨fun _ => rfl,
   fun m₁ m₂ h => by simp [detectMode, h],
   by decide, by decide, by decide, by decide⟩

/-- Witness for C3: case-insensitivity applied at a concrete pair of texts. -/
theorem detectMode_policy_witness :
    toLowerChars "How ARE you" = toLowerChars "how are you" ∧
    detectMode "How ARE you" = detectMode "how are you" :=
  ⟨by decide, detectMode_policy.2.1 "How ARE you" "how are you" (by decide)⟩

/-- C4: a non-empty `forcedMode` that resolves to a known profile wins
unconditionally for every message, and the handler reports it as the mode
used, with no inspection of the message content. -/
theorem forcedMode_wins
    (data : Store) (chatId message forced : String)
    (gen : List Message → ModeConfig → GroqResult)
    (chat : Session) (config : ModeConfig)
    (hid : ¬ chatId = "") (hmsg : ¬ message = "")
    (hget : getChat data chatId = .session chat)
    (hforced : chat.forcedMode = some forced) (hne : ¬ forced = "")
    (hmode : MODES forced = some config) :
    selectMode chat.forcedMode message = forced ∧
    (handleTurn data chatId message gen).1 =
      .ok ⟨callGroq (gen (buildContext config chat.memory
             (chat.messages ++ [⟨"user", message⟩])) config), forced⟩ := by
  have hsel : selectMode chat.forcedMode message = forced := by
    rw [hforced]
    exact selectMode_forced forced message hne
  refine ⟨hsel, ?_⟩
  rw [handleTurn_eq_of_some data chatId message gen chat config hid hmsg hget
    (by rw [hsel]; exact hmode)]
  simp [hsel]

/-- Witness for C4: `forcedMode = "concise"` beats a message full of technical
keywords. -/
theorem forcedMode_wins_witness :
    selectMode forcedSession.forcedMode "please fix this bug in my function" = "concise" ∧
    (handleTurn forcedStore "id2" "please fix this bug in my function" sampleGen).1 =
      .ok ⟨callGroq (sampleGen (buildContext
             ⟨5/10, 150, "You are Almas. Give very short and clear answers."⟩
             forcedSession.memory
             (forcedSession.messages
               ++ [⟨"user", "please fix this bug in my function"⟩]))
             ⟨5/10, 150, "You are Almas. Give very short and clear answers."⟩),
          "concise"⟩ :=
  forcedMode_wins forcedStore "id2" "please fix this bug in my function" "concise" sampleGen
    forcedSession ⟨5/10, 150, "You are Almas. Give very short and clear answers."⟩
    (by decide) (by decide) (by rfl) (by rfl) (by decide) (by rfl)

/-- C5: the context is exactly one leading instruction message — the profile
preamble followed by the memory value, with the `"None"` placeholder for empty
memory — and then, for a transcript longer than 12, exactly the last 12
transcript messages in original chronological order and none of the earlier
ones. -/
theorem buildContext_shape
    (config : ModeConfig) (memory : String) (messages : List Message)
    (h : 12 < messages.length) :
    buildContext config memory messages =
      Message.mk "system"
          (config.systemPrompt ++ "\nUser Memory:\n" ++ (if memory = "" then "None" else memory))
        :: messages.drop (messages.length - 12) ∧
    (messages.drop (messages.length - 12)).length = 12 ∧
    messages.take (messages.length - 12) ++ messages.drop (messages.length - 12) = messages := by
  refine ⟨rfl, ?_, List.take_append_drop ..⟩
  rw [List.length_drop]
  omega

/-- Witness for C5: the 20-message sample transcript with empty memory. -/
theorem buildContext_shape_witness :
    12 < sampleTranscript.length ∧
    (buildContext ⟨1, 500, "preamble"⟩ "" sampleTranscript =
      Message.mk "system"
          (ModeConfig.systemPrompt ⟨1, 500, "preamble"⟩ ++ "\nUser Memory:\n"
            ++ (if ("" : String) = "" then "None" else ""))
        :: sampleTranscript.drop (sampleTranscript.length - 12) ∧
    (sampleTranscript.drop (sampleTranscript.length - 12)).length = 12 ∧
    sampleTranscript.take (sampleTranscript.length - 12)
      ++ sampleTranscript.drop (sampleTranscript.length - 12) = sampleTranscript) :=
  ⟨by decide, buildContext_shape ⟨1, 500, "preamble"⟩ "" sampleTranscript (by decide)⟩

/-- C6 counterexample: the id "constructor" is not present in the empty
store, yet the handler does not answer NotFound — the property read finds the
truthy inherited `Object` constructor, the 404 guard is skipped, and the turn
dies with a TypeError at `chat.messages.push` (still without writing). -/
theorem notFound_counterexample :
    lookupOwn ([] : Store) "constructor" = none ∧
    handleTurn ([] : Store) "constructor" "hello" sampleGen =
      (.error .typeError, ([] : Store)) ∧
    ¬ handleTurn ([] : Store) "constructor" "hello" sampleGen =
      (.error .notFound, ([] : Store)) := by
  refine ⟨rfl, rfl, fun h => ?_⟩
  have h1 : (Except.error TurnError.typeError : Except TurnError TurnOutput) =
      .error .notFound := congrArg Prod.fst h
  exact TurnError.noConfusion (Except.error.inj h1)

/-- C6 amended: on a session id absent from the store the handler never
writes the document; it answers NotFound exactly when the id also names no
`Object.prototype` member, while an absent id naming an inherited member
slips past the 404 guard and fails with a TypeError instead — still without
a write. -/
theorem notFound_no_write
    (data : Store) (chatId message : String)
    (gen : List Message → ModeConfig → GroqResult)
    (hid : ¬ chatId = "") (hmsg : ¬ message = "")
    (hown : lookupOwn data chatId = none) :
    handleTurn data chatId message gen =
      (.error (if chatId ∈ protoNames then .typeError else .notFound), data) := by
  unfold handleTurn getChat
  rw [hown]
  by_cases hp : chatId ∈ protoNames
  · simp [hid, hmsg, hp]
  · simp [hid, hmsg, hp]

/-- Witness for the amended C6: an unknown id naming no prototype member,
against the sample store. -/
theorem notFound_no_write_witness :
    handleTurn sampleStore "missing" "hello" sampleGen =
      (.error (if "missing" ∈ protoNames then .typeError else .notFound),
       sampleStore) :=
  notFound_no_write sampleStore "missing" "hello" sampleGen (by decide) (by decide) (by rfl)

/-- C7 counterexample: no session named "constructor" exists in the empty
store, yet `deleteChat` reports `true` — the `!data[chatId]` guard sees the
truthy inherited constructor — and reports `true` again on the second call,
never `false`. -/
theorem deleteChat_counterexample :
    lookupOwn ([] : Store) "constructor" = none ∧
    deleteChat ([] : Store) "constructor" = (true, ([] : Store)) ∧
    deleteChat (deleteChat ([] : Store) "constructor").2 "constructor" =
      (true, ([] : Store)) :=
  ⟨rfl, rfl, rfl⟩

/-- C7 amended: for every id that names no `Object.prototype` member,
`deleteChat` reports exactly whether a session with that id existed, removes
it, is an error-free `false` no-op the second time, and the id no longer
appears in the listing; an absent id that does name an inherited member is
instead reported deleted (`true`) on every call, with the stored mapping
unchanged. -/
theorem deleteChat_spec (data : Store) (chatId : String)
    (hproto : ¬ chatId ∈ protoNames) :
    (deleteChat data chatId).1 = (lookupOwn data chatId).isSome ∧
    lookupOwn (deleteChat data chatId).2 chatId = none ∧
    deleteChat (deleteChat data chatId).2 chatId = (false, (deleteChat data chatId).2) ∧
    ((listChats (deleteChat data chatId).2).all (fun s => s.chatId != chatId)) = true := by
  have hget : ∀ d : Store, getChat d chatId =
      (match lookupOwn d chatId with
       | some s => PropRead.session s
       | none => PropRead.undefined) := by
    intro d
    unfold getChat
    cases lookupOwn d chatId <;> simp [hproto]
  have hdel : ∀ d : Store, deleteChat d chatId =
      (match lookupOwn d chatId with
       | some _ => (true, d.filter (fun p => p.1 != chatId))
       | none => (false, d)) := by
    intro d
    unfold deleteChat
    rw [hget d]
    cases lookupOwn d chatId <;> simp
  cases hcase : lookupOwn data chatId with
  | none =>
    have h1 : deleteChat data chatId = (false, data) := by rw [hdel data, hcase]
    refine ⟨by simp [h1], by rw [h1]; exact hcase, ?_, ?_⟩
    · rw [h1]
      show deleteChat data chatId = (false, data)
      exact h1
    · rw [h1, List.all_eq_true]
      intro s hs
      rw [mem_listChats] at hs
      obtain ⟨p, hp, rfl⟩ := hs
      simpa using lookupOwn_eq_none_keys data chatId hcase p hp
  | some sess =>
    have h1 : deleteChat data chatId = (true, data.filter (fun p => p.1 != chatId)) := by
      rw [hdel data, hcase]
    have h2 : lookupOwn (deleteChat data chatId).2 chatId = none := by
      rw [h1]
      exact lookupOwn_filter_self data chatId
    refine ⟨by simp [h1], h2, ?_, ?_⟩
    · rw [hdel _, h2]
    · rw [List.all_eq_true]
      intro s hs
      rw [mem_listChats] at hs
      obtain ⟨p, hp, rfl⟩ := hs
      rw [h1] at hp
      simpa using (List.mem_filter.mp hp).2

/-- Witness for the amended C7: deleting the sample session twice. -/
theorem deleteChat_spec_witness :
    (deleteChat sampleStore "id1").1 = (lookupOwn sampleStore "id1").isSome ∧
    lookupOwn (deleteChat sampleStore "id1").2 "id1" = none ∧
    deleteChat (deleteChat sampleStore "id1").2 "id1" =
      (false, (deleteChat sampleStore "id1").2) ∧
    ((listChats (deleteChat sampleStore "id1").2).all (fun s => s.chatId != "id1")) = true :=
  deleteChat_spec sampleStore "id1" (by decide)

/-- C8 counterexample: with both full-document reads happening before either
full-document write (schedule read₁, read₂, write₁, write₂ — a legal
interleaving of the two concurrent commits), the second writer's
whole-document write silently discards the first writer's committed turn:
session `"a"` does not hold its committed value afterwards, while `"b"`
does. -/
theorem lost_update_counterexample :
    getChat (runRace "a" raceNewA "b" raceNewB raceDoc0
        [.read false, .read true, .write false, .write true]) "b" = .session raceNewB ∧
    ¬ getChat (runRace "a" raceNewA "b" raceNewB raceDoc0
        [.read false, .read true, .write false, .write true]) "a" = .session raceNewA :=
  ⟨by rfl, by decide⟩

/-- C8 amended: when the two commits on distinct sessions are serialized — the
first writer's document write completes before the second writer's document
read — both sessions' committed values are durably persisted; with both reads
before either write the earlier update is lost (see the counterexample). -/
theorem serialized_commits_both_persist
    (id1 id2 : String) (s1 s2 : Session) (doc0 : Store) (hne : ¬ id1 = id2) :
    getChat (runRace id1 s1 id2 s2 doc0
      [.read false, .write false, .read true, .write true]) id1 = .session s1 ∧
    getChat (runRace id1 s1 id2 s2 doc0
      [.read false, .write false, .read true, .write true]) id2 = .session s2 := by
  unfold runRace
  simp only [List.foldl, raceStep]
  constructor
  · rw [getChat_eq_session_iff, lookupOwn_saveChat_ne _ _ _ _ hne]
    exact lookupOwn_saveChat_same ..
  · exact getChat_saveChat_session ..

/-- Witness for the amended C8: the concrete two-session scenario run under
the serialized schedule keeps both committed turns. -/
theorem serialized_commits_both_persist_witness :
    getChat (runRace "a" raceNewA "b" raceNewB raceDoc0
      [.read false, .write false, .read true, .write true]) "a" = .session raceNewA ∧
    getChat (runRace "a" raceNewA "b" raceNewB raceDoc0
      [.read false, .write false, .read true, .write true]) "b" = .session raceNewB :=
  serialized_commits_both_persist "a" "b" raceNewA raceNewB raceDoc0 (by decide)

/-- C9: a non-empty `forcedMode` naming none of the four known profiles makes
the turn fail (the profile lookup comes back empty and the handler dies
dereferencing it) instead of falling back to automatic detection; the document
is not written. -/
theorem unknown_forcedMode_fails
    (data : Store) (chatId message forced : String)
    (gen : List Message → ModeConfig → GroqResult) (chat : Session)
    (hid : ¬ chatId = "") (hmsg : ¬ message = "")
    (hget : getChat data chatId = .session chat)
    (hforced : chat.forcedMode = some forced) (hne : ¬ forced = "")
    (h1 : ¬ forced = "chat") (h2 : ¬ forced = "technical")
    (h3 : ¬ forced = "concise") (h4 : ¬ forced = "exam") :
    MODES forced = none ∧
    handleTurn data chatId message gen = (.error .modeLookupFailed, data) := by
  have hmodes : MODES forced = none := by
    unfold MODES
    simp [h1, h2, h3, h4]
  have hsel : selectMode chat.forcedMode message = forced := by
    rw [hforced]
    exact selectMode_forced forced message hne
  refine ⟨hmodes, ?_⟩
  unfold handleTurn
  simp [hid, hmsg, hget, hsel, hmodes]

/-- Witness for C9: `forcedMode = "turbo"` on the sample session. -/
theorem unknown_forcedMode_fails_witness :
    MODES "turbo" = none ∧
    handleTurn badModeStore "id3" "how are you" sampleGen =
      (.error .modeLookupFailed, badModeStore) :=
  unknown_forcedMode_fails badModeStore "id3" "how are you" "turbo" sampleGen badModeSession
    (by decide) (by decide) (by rfl) (by rfl) (by decide) (by decide) (by decide)
    (by decide) (by decide)

/-- C10: a successful generator response carrying no extracted text yields the
empty string — not the fallback — as the reply and as the appended assistant
content; the fallback string is reserved for failures and is itself
non-empty. -/
theorem empty_success_reply
    (data : Store) (chatId message : String) (chat : Session) (config : ModeConfig)
    (hid : ¬ chatId = "") (hmsg : ¬ message = "")
    (hget : getChat data chatId = .session chat)
    (hmode : MODES (selectMode chat.forcedMode message) = some config) :
    callGroq (.ok none) = "" ∧
    callGroq (.ok (some "")) = "" ∧
    ¬ fallbackReply = "" ∧
    ∃ store1,
      handleTurn data chatId message (fun _ _ => .ok none) =
        (.ok ⟨"", selectMode chat.forcedMode message⟩, store1) ∧
      getChat store1 chatId = .session
        { chat with
            messages := (chat.messages ++ [⟨"user", message⟩]) ++ [⟨"assistant", ""⟩],
            memory := message } := by
  refine ⟨rfl, rfl, by decide, saveChat data chatId
    { chat with
        messages := (chat.messages ++ [⟨"user", message⟩]) ++ [⟨"assistant", ""⟩],
        memory := message },
    ?_, getChat_saveChat_session ..⟩
  rw [handleTurn_eq_of_some data chatId message (fun _ _ => .ok none) chat config
    hid hmsg hget hmode]
  rfl

/-- Witness for C10: an empty-bodied success on the sample store. -/
theorem empty_success_reply_witness :
    callGroq (.ok none) = "" ∧
    callGroq (.ok (some "")) = "" ∧
    ¬ fallbackReply = "" ∧
    ∃ store1,
      handleTurn sampleStore "id1" "hello" (fun _ _ => .ok none) =
        (.ok ⟨"", selectMode sampleSession.forcedMode "hello"⟩, store1) ∧
      getChat store1 "id1" = .session
        { sampleSession with
            messages := (sampleSession.messages ++ [⟨"user", "hello"⟩]) ++ [⟨"assistant", ""⟩],
            memory := "hello" } :=
  empty_success_reply sampleStore "id1" "hello" sampleSession
    ⟨8/10, 500,
      "You are Almas, a friendly AI created by Hussain. Be natural and conversational."⟩
    (by decide) (by decide) (by rfl) (by rfl)

end Almas
